import Mathlib

/-!
Shallow embedding of the Oracle Sales Forecaster backend (src/main.py) and
verification of its specification claims.

The pandas/Prophet based pipeline is embedded as follows: a parsed CSV file is
a `Table` (a list of column names plus a list of `SalesRecord` rows); rational
numbers stand for the float columns; the external Prophet forecasting function
is an opaque parameter of type `ProphetFn` receiving exactly the configuration
the code passes (daily_seasonality flag, number of future periods, and the
(ds, y) history in the order the code hands it over); the uploads directory is
a `Store`, a map from path strings to file contents, where a file content is
`Option Table` (`none` models a file pandas fails to parse).
-/

namespace Oracle

/-- Calendar date as parsed by pandas `to_datetime` (year, month, day). -/
structure Date where
  y : Nat
  m : Nat
  d : Nat
deriving DecidableEq, Repr

/-- Chronological order on parsed dates (lexicographic on year, month, day). -/
def dateLe (a b : Date) : Prop :=
  a.y < b.y ∨ (a.y = b.y ∧ (a.m < b.m ∨ (a.m = b.m ∧ a.d ≤ b.d)))

instance : DecidableRel dateLe := fun a b => by unfold dateLe; infer_instance

/-- Strict chronological order on parsed dates. -/
def dateLt (a b : Date) : Prop :=
  dateLe a b ∧ a ≠ b

instance : DecidableRel dateLt := fun a b => by unfold dateLt; infer_instance

/-- Left-pad the decimal representation of a number with zeros to width `w`. -/
def padNum (w : Nat) (n : Nat) : String :=
  String.mk (List.replicate (w - (toString n).length) (Char.ofNat 48)) ++ toString n

/-- The strftime format string percent-Y dash percent-m dash percent-d used at
src/main.py:163 and src/main.py:247. -/
def fmtDate (dt : Date) : String :=
  padNum 4 dt.y ++ "-" ++ padNum 2 dt.m ++ "-" ++ padNum 2 dt.d

/-- One row of an uploaded dataset (spec section 3, SalesRecord). -/
structure SalesRecord where
  date : Date
  product_id : String
  units_sold : ℚ
  price : ℚ
deriving DecidableEq, Repr

/-- A parsed CSV file: the column names pandas found plus the parsed rows.
When a required column is absent the corresponding record fields are junk and
are never reached, because the code checks column presence first
(src/main.py:222) and only reads values afterwards. -/
structure Table where
  cols : List String
  records : List SalesRecord
deriving DecidableEq

/-- Python str.endswith, case sensitive (src/main.py:214). -/
def strEndsWith (s suff : String) : Bool :=
  s.data.drop (s.data.length - suff.data.length) == suff.data

/-- Lexicographic order on char lists by code point; this is how pandas
orders string group keys. -/
def lexLe : List Char → List Char → Bool
  | [], _ => true
  | _ :: _, [] => false
  | x :: xs, y :: ys =>
    if x.toNat < y.toNat then true
    else if y.toNat < x.toNat then false
    else lexLe xs ys

/-- Lexicographic order on strings by code point. -/
def strLe (a b : String) : Prop :=
  lexLe a.data b.data = true

instance : DecidableRel strLe := fun a b => by unfold strLe; infer_instance

/-- First-occurrence deduplication, the semantics of pandas Series.unique
(src/main.py:229) and of the distinct group keys of groupby. -/
def uniqueFirstAux {α : Type} [DecidableEq α] (seen : List α) : List α → List α
  | [] => []
  | x :: xs => if x ∈ seen then uniqueFirstAux seen xs else x :: uniqueFirstAux (x :: seen) xs

/-- First-occurrence deduplication of a list. -/
def uniqueFirst {α : Type} [DecidableEq α] (l : List α) : List α :=
  uniqueFirstAux [] l

/-- Pandas groupby(key)[val].sum() with the default sort=True: the distinct
keys in ascending key order, each paired with the sum of `val` over the rows
having that key (src/main.py:245 and src/main.py:250). -/
def groupbySum {κ : Type} [DecidableEq κ] (r : κ → κ → Prop) [DecidableRel r]
    (key : SalesRecord → κ) (val : SalesRecord → ℚ) (rs : List SalesRecord) : List (κ × ℚ) :=
  (List.insertionSort r (uniqueFirst (rs.map key))).map
    (fun k => (k, ((rs.filter (fun x => decide (key x = k))).map val).sum))

/-- An HTTP error response: status code and detail message. -/
structure ApiErr where
  status : Nat
  detail : String
deriving DecidableEq

/-- The uploads directory: maps a path to the content of the file stored
there, if any. A stored file is represented by its parse result, `none`
standing for bytes pandas cannot parse. -/
def Store : Type := String → Option (Option Table)

/-- The storage path uploads/user_<id>_<filename> (src/main.py:216). -/
def file_path (uid : Nat) (filename : String) : String :=
  "uploads/user_" ++ toString uid ++ "_" ++ filename

/-- One row of the (ds, y) frame handed to Prophet (src/main.py:269). -/
structure TsRow where
  ds : Date
  y : ℚ
deriving DecidableEq, Repr

/-- One row of the Prophet forecast output frame (src/main.py:274). -/
structure ForecastRow where
  ds : Date
  yhat : ℚ
  yhat_lower : ℚ
  yhat_upper : ℚ
deriving DecidableEq, Repr

/-- The external forecasting function, opaque to this repository: it receives
the daily_seasonality flag, the number of future periods requested through
make_future_dataframe, and the (ds, y) history, and returns the full forecast
frame (historical dates plus future horizon). -/
abbrev ProphetFn : Type := Bool → Nat → List TsRow → List ForecastRow

/-- Pandas DataFrame.tail(n): the last `min n length` rows. -/
def tailN {α : Type} (n : Nat) (l : List α) : List α :=
  l.drop (l.length - n)

/-- Pandas Series.mean: `none` models the NaN mean of an empty series. -/
def mean (l : List ℚ) : Option ℚ :=
  if l = [] then none else some (l.sum / l.length)

/-- The float value change_percent of src/main.py:58-61, which can be the
float infinity (hist average missing or zero and forecast average positive)
or NaN (forecast average NaN while hist average is nonzero). -/
inductive ChangeVal where
  | pinf
  | nan
  | fin (q : ℚ)
deriving DecidableEq, Repr

/-- Python float greater-than with IEEE semantics on infinity and NaN. -/
def cpGtB : ChangeVal → ℚ → Bool
  | .pinf, _ => true
  | .nan, _ => false
  | .fin q, t => decide (t < q)

/-- Python float less-than with IEEE semantics on infinity and NaN. -/
def cpLtB : ChangeVal → ℚ → Bool
  | .pinf, _ => false
  | .nan, _ => false
  | .fin q, t => decide (q < t)

/-- Python `x > 0` on an optional (possibly NaN) float. -/
def posB : Option ℚ → Bool
  | some q => decide (0 < q)
  | none => false

/-- The change_percent computation of generate_insight (src/main.py:55-61):
last 7 historical y values averaged against last 7 yhat values of the frame
passed in; if the historical average is NaN or zero the result is infinity
when the forecast average is positive and 0 otherwise. -/
def change_percent_of (histY fcstYhat : List ℚ) : ChangeVal :=
  let last_historical_avg := mean (tailN 7 histY)
  let last_forecast_avg := mean (tailN 7 fcstYhat)
  match last_historical_avg with
  | none => if posB last_forecast_avg then .pinf else .fin 0
  | some a =>
    if a = 0 then (if posB last_forecast_avg then .pinf else .fin 0)
    else
      match last_forecast_avg with
      | none => .nan
      | some f => .fin ((f - a) / a * 100)

/-- The five message branches of generate_insight (src/main.py:63-77). -/
inductive Trend where
  | strongUpward
  | modestUpward
  | significantDownward
  | modestDownward
  | stable
deriving DecidableEq, Repr

/-- The if/elif chain of src/main.py:63-77, first match wins. -/
def trend_of (c : ChangeVal) : Trend :=
  if cpGtB c 15 then .strongUpward
  else if cpGtB c 5 then .modestUpward
  else if cpLtB c (-15) then .significantDownward
  else if cpLtB c (-5) then .modestDownward
  else .stable

/-- The content of the insight message string: which product, which computed
change percentage, which trend/recommendation branch. The English rendering
of the message around these values is display only and not modeled. -/
structure Insight where
  product_id : String
  change_percent : ChangeVal
  trend : Trend
deriving DecidableEq, Repr

/-- generate_insight (src/main.py:53-79), taking the y column of the
historical frame and the yhat column of the forecast frame it receives. -/
def generate_insight (product_id : String) (histY fcstYhat : List ℚ) : Insight :=
  let c := change_percent_of histY fcstYhat
  { product_id := product_id, change_percent := c, trend := trend_of c }

/-- The success payload of the upload endpoint (src/main.py:229). -/
structure UploadOk where
  message : String
  filename : String
  products : List String
deriving DecidableEq

/-- The required column set of src/main.py:221. -/
def required_columns : List String :=
  ["date", "product_id", "units_sold", "price"]

/-- The upload endpoint upload_csv (src/main.py:212-229). Returns the HTTP
outcome together with the post-request state of the uploads directory: a
non-csv filename is rejected before any write; otherwise the file is written
(overwriting any previous file at that path), validated, and deleted again on
any validation failure. -/
def upload_csv (store : Store) (uid : Nat) (filename : String) (content : Option Table) :
    Except ApiErr UploadOk × Store :=
  if strEndsWith filename ".csv" = false then
    (.error { status := 400, detail := "Invalid file type. Please upload a CSV file." }, store)
  else
    let fp := file_path uid filename
    let written : Store := fun k => if k = fp then some content else store k
    let removed : Store := fun k => if k = fp then none else written k
    match content with
    | none =>
      (.error { status := 400, detail := "CSV Validation Error: could not parse file" }, removed)
    | some df =>
      if required_columns.all (fun c => decide (c ∈ df.cols)) = false then
        (.error { status := 400, detail := "CSV Validation Error: Missing required columns" }, removed)
      else if df.records.any (fun r => decide (r.units_sold < 0)) || df.records.any (fun r => decide (r.price < 0)) then
        (.error { status := 400, detail := "CSV Validation Error: units_sold and price cannot contain negative values" }, removed)
      else
        (.ok { message := "CSV validated and saved successfully!", filename := filename,
               products := uniqueFirst (df.records.map (fun r => r.product_id)) }, written)

/-- The JSON payload of the analysis endpoint (src/main.py:252-255), dates
rendered by strftime. -/
structure AnalysisResponse where
  revenue_over_time : List (String × ℚ)
  top_products : List (String × ℚ)
deriving DecidableEq

/-- Pandas Series.nlargest(5) applied to the groupby sum series
(src/main.py:250): stable descending sort by value, truncated to 5. -/
def nlargest5 (l : List (String × ℚ)) : List (String × ℚ) :=
  (List.insertionSort (fun a b : String × ℚ => b.2 ≤ a.2) l).take 5

/-- The body of the analysis endpoint after the file was read
(src/main.py:240-255): revenue summed per parsed date in ascending date order
with dates rendered by strftime, and the 5 largest per-product units_sold
sums. -/
def get_historical_analysis_main (df : Table) : AnalysisResponse :=
  { revenue_over_time :=
      (groupbySum dateLe (fun r => r.date) (fun r => r.units_sold * r.price) df.records).map
        (fun p => (fmtDate p.1, p.2)),
    top_products :=
      nlargest5 (groupbySum strLe (fun r => r.product_id) (fun r => r.units_sold) df.records) }

/-- The analysis endpoint get_historical_analysis (src/main.py:231-255). -/
def get_historical_analysis (store : Store) (uid : Nat) (filename : String) :
    Except ApiErr AnalysisResponse :=
  match store (file_path uid filename) with
  | none => .error { status := 404, detail := "File not found. Please upload it again." }
  | some none => .error { status := 500, detail := "Internal Server Error" }
  | some (some df) => .ok (get_historical_analysis_main df)

/-- A cell value as it appears in a response produced from a DataFrame: a
raw datetime value, a string, or a number. Distinguishing raw datetimes from
their strftime renderings records where the code formats dates and where it
does not. -/
inductive PyVal where
  | vDate (d : Date)
  | vStr (s : String)
  | vNum (q : ℚ)
deriving DecidableEq, Repr

/-- The JSON payload of the forecast endpoint (src/main.py:279-285). -/
structure ForecastResponse where
  product_id : String
  insight : Insight
  historical_data : List TsRow
  forecast_data : List (PyVal × ℚ × ℚ × ℚ)
deriving DecidableEq

/-- The body of the forecast endpoint after the file was read
(src/main.py:264-285). The rows matching the product are taken in file order
(no sort); the forecast frame returned by Prophet covers history plus horizon;
forecast_data keeps only its last 30 rows and carries the raw ds value (no
strftime on this path). -/
def get_forecast_main (df : Table) (prophet : ProphetFn) (product_id : String) :
    Except ApiErr ForecastResponse :=
  let product_history := df.records.filter (fun r => decide (r.product_id = product_id))
  if product_history = [] then
    .error { status := 404, detail := "Product ID " ++ product_id ++ " not found." }
  else if product_history.length < 30 then
    .error { status := 400, detail := "Not enough data. A minimum of 30 data points is required." }
  else
    let prophet_df : List TsRow := product_history.map (fun r => { ds := r.date, y := r.units_sold })
    let forecast := prophet true 30 prophet_df
    .ok { product_id := product_id,
          insight := generate_insight product_id (prophet_df.map (fun r => r.y))
            (forecast.map (fun r => r.yhat)),
          historical_data := prophet_df,
          forecast_data :=
            tailN 30 (forecast.map (fun r => (PyVal.vDate r.ds, r.yhat, r.yhat_lower, r.yhat_upper))) }

/-- The forecast endpoint get_forecast (src/main.py:258-285): file lookup,
then the per-file body. -/
def get_forecast (store : Store) (prophet : ProphetFn) (uid : Nat)
    (product_id filename : String) : Except ApiErr ForecastResponse :=
  match store (file_path uid filename) with
  | none => .error { status := 404, detail := "File not found. Please upload it again." }
  | some none => .error { status := 500, detail := "Internal Server Error" }
  | some (some df) => get_forecast_main df prophet product_id

/-- The streamed CSV produced by the export endpoint: fixed header, one row
of cells per forecast row, and the response headers around it. -/
structure ExportResponse where
  header : List String
  rows : List (List PyVal)
  contentDisposition : String
  mediaType : String
deriving DecidableEq

/-- The body of the export endpoint after the file was read
(src/main.py:141-175). It redoes the filter, the two checks and the Prophet
call from scratch, then serializes the full forecast frame (history plus
horizon, no tail) with ds rendered by strftime. -/
def export_forecast_csv_main (df : Table) (prophet : ProphetFn) (product_id : String) :
    Except ApiErr ExportResponse :=
  let product_history := df.records.filter (fun r => decide (r.product_id = product_id))
  if product_history = [] then
    .error { status := 404, detail := "Product ID " ++ product_id ++ " not found." }
  else if product_history.length < 30 then
    .error { status := 400, detail := "Not enough data to export." }
  else
    let prophet_df : List TsRow := product_history.map (fun r => { ds := r.date, y := r.units_sold })
    let forecast := prophet true 30 prophet_df
    .ok { header := ["date", "predicted_sales", "predicted_sales_lower_bound", "predicted_sales_upper_bound"],
          rows := forecast.map (fun r =>
            [PyVal.vStr (fmtDate r.ds), PyVal.vNum r.yhat, PyVal.vNum r.yhat_lower, PyVal.vNum r.yhat_upper]),
          contentDisposition := "attachment; filename=forecast_" ++ product_id ++ ".csv",
          mediaType := "text/csv" }

/-- The export endpoint export_forecast_csv (src/main.py:130-175): file
lookup, then the per-file body. -/
def export_forecast_csv (store : Store) (prophet : ProphetFn) (uid : Nat)
    (product_id filename : String) : Except ApiErr ExportResponse :=
  match store (file_path uid filename) with
  | none => .error { status := 404, detail := "File not found. Please upload it again." }
  | some none => .error { status := 500, detail := "Internal Server Error" }
  | some (some df) => export_forecast_csv_main df prophet product_id

/-- Re-parsing one exported CSV row: a date cell followed by three numeric
cells yields the (date, yhat, yhat_lower, yhat_upper) tuple back. -/
def parseExportRow : List PyVal → Option (String × ℚ × ℚ × ℚ)
  | [PyVal.vStr s, PyVal.vNum a, PyVal.vNum b, PyVal.vNum c] => some (s, a, b, c)
  | _ => none

/-- Re-parsing a whole exported CSV body, row by row; fails when any row does
not have the date, yhat, yhat_lower, yhat_upper shape. -/
def parseRows : List (List PyVal) → Option (List (String × ℚ × ℚ × ℚ))
  | [] => some []
  | row :: rest =>
    match parseExportRow row, parseRows rest with
    | some t, some ts => some (t :: ts)
    | _, _ => none

/-- The (ds, y) frame built at src/main.py:269 and src/main.py:148: the rows
of the dataset matching the product, in their original file order, reduced to
(date, units_sold). -/
def prophetInput (df : Table) (product_id : String) : List TsRow :=
  (df.records.filter (fun r => decide (r.product_id = product_id))).map
    (fun r => { ds := r.date, y := r.units_sold })

/-- Validation failure of an uploaded content: unparseable, or a required
column missing, or a negative units_sold or price value (src/main.py:219-225). -/
def failsValidation (content : Option Table) : Prop :=
  content = none ∨
    ∃ df, content = some df ∧
      (required_columns.all (fun c => decide (c ∈ df.cols)) = false ∨
       df.records.any (fun r => decide (r.units_sold < 0)) = true ∨
       df.records.any (fun r => decide (r.price < 0)) = true)

/-- Modelled from the claim wording for C6: the per-product units_sold sums
with the distinct product_ids kept in their original encounter order in the
dataset, stably sorted descending by total, truncated to the 5 largest. To be
compared with the top_products the code computes, whose grouping step sorts
the keys. -/
def spec_top_products_encounter (rs : List SalesRecord) : List (String × ℚ) :=
  (List.insertionSort (fun a b : String × ℚ => b.2 ≤ a.2)
    ((uniqueFirst (rs.map (fun r => r.product_id))).map
      (fun k => (k, ((rs.filter (fun x => decide (x.product_id = k))).map
        (fun r => r.units_sold)).sum)))).take 5

/-! ### Concrete fixtures used by the witness and counterexample theorems -/

/-- The three-record dataset of the spec example in section 8. -/
def tblEx : Table :=
  { cols := ["date", "product_id", "units_sold", "price"],
    records := [{ date := ⟨2024, 1, 1⟩, product_id := "A", units_sold := 10, price := 2 },
                { date := ⟨2024, 1, 1⟩, product_id := "B", units_sold := 5, price := 3 },
                { date := ⟨2024, 1, 2⟩, product_id := "A", units_sold := 7, price := 2 }] }

/-- A dataset with two products of equal total units_sold, the
alphabetically later one encountered first. -/
def tblTie : Table :=
  { cols := ["date", "product_id", "units_sold", "price"],
    records := [{ date := ⟨2024, 1, 1⟩, product_id := "B", units_sold := 10, price := 1 },
                { date := ⟨2024, 1, 2⟩, product_id := "A", units_sold := 10, price := 1 }] }

/-- A store holding tblEx under user 1, filename ex.csv. -/
def storeEx : Store := fun k =>
  if k = file_path 1 "ex.csv" then some (some tblEx) else none

/-- A 30-row dataset for one product, dates ascending. -/
def tbl30 : Table :=
  { cols := ["date", "product_id", "units_sold", "price"],
    records := (List.range 30).map
      (fun i => { date := ⟨2024, 1, i + 1⟩, product_id := "A", units_sold := 5, price := 2 }) }

/-- A 2-row dataset whose only product has too few rows. -/
def tblSmall : Table :=
  { cols := ["date", "product_id", "units_sold", "price"],
    records := [{ date := ⟨2024, 1, 1⟩, product_id := "C", units_sold := 5, price := 2 },
                { date := ⟨2024, 1, 2⟩, product_id := "C", units_sold := 6, price := 2 }] }

/-- A store holding tbl30 under user 1, filename data.csv, and tblSmall under
user 1, filename small.csv. -/
def storeA : Store := fun k =>
  if k = file_path 1 "data.csv" then some (some tbl30)
  else if k = file_path 1 "small.csv" then some (some tblSmall)
  else none

/-- A concrete deterministic Prophet stand-in echoing its input history. -/
def prophetEcho : ProphetFn := fun _ _ ts =>
  ts.map (fun r => { ds := r.ds, yhat := r.y, yhat_lower := r.y, yhat_upper := r.y })

/-- A table with a negative price, failing validation. -/
def tblNeg : Table :=
  { cols := ["date", "product_id", "units_sold", "price"],
    records := [{ date := ⟨2024, 1, 1⟩, product_id := "A", units_sold := 5, price := -2 }] }

/-- A 30-row dataset stored with its dates in descending order. -/
def tblDesc : Table :=
  { cols := ["date", "product_id", "units_sold", "price"],
    records := (List.range 30).map
      (fun i => { date := ⟨2024, 1, 30 - i⟩, product_id := "D", units_sold := 1, price := 1 }) }

/-- A store holding tblDesc under user 1, filename desc.csv. -/
def storeD : Store := fun k =>
  if k = file_path 1 "desc.csv" then some (some tblDesc) else none

/-! ### Helper lemmas -/

/-- Evaluation of the forecast endpoint body once both checks pass. -/
theorem get_forecast_main_eq_ok (df : Table) (prophet : ProphetFn) (product_id : String)
    (h1 : df.records.filter (fun r => decide (r.product_id = product_id)) ≠ [])
    (h2 : ¬ (df.records.filter (fun r => decide (r.product_id = product_id))).length < 30) :
    get_forecast_main df prophet product_id =
      .ok { product_id := product_id,
            insight := generate_insight product_id ((prophetInput df product_id).map (fun r => r.y))
              ((prophet true 30 (prophetInput df product_id)).map (fun r => r.yhat)),
            historical_data := prophetInput df product_id,
            forecast_data := tailN 30 ((prophet true 30 (prophetInput df product_id)).map
              (fun r => (PyVal.vDate r.ds, r.yhat, r.yhat_lower, r.yhat_upper))) } := by
  simp only [get_forecast_main, if_neg h1, if_neg h2]
  rfl

/-- Evaluation of the export endpoint body once both checks pass. -/
theorem export_main_eq_ok (df : Table) (prophet : ProphetFn) (product_id : String)
    (h1 : df.records.filter (fun r => decide (r.product_id = product_id)) ≠ [])
    (h2 : ¬ (df.records.filter (fun r => decide (r.product_id = product_id))).length < 30) :
    export_forecast_csv_main df prophet product_id =
      .ok { header := ["date", "predicted_sales", "predicted_sales_lower_bound", "predicted_sales_upper_bound"],
            rows := (prophet true 30 (prophetInput df product_id)).map (fun r =>
              [PyVal.vStr (fmtDate r.ds), PyVal.vNum r.yhat, PyVal.vNum r.yhat_lower, PyVal.vNum r.yhat_upper]),
            contentDisposition := "attachment; filename=forecast_" ++ product_id ++ ".csv",
            mediaType := "text/csv" } := by
  simp only [export_forecast_csv_main, if_neg h1, if_neg h2]
  rfl

theorem mem_uniqueFirstAux {α : Type} [DecidableEq α] (x : α) :
    ∀ (l seen : List α), x ∈ uniqueFirstAux seen l ↔ x ∈ l ∧ x ∉ seen := by
  intro l
  induction l with
  | nil => intro seen; simp [uniqueFirstAux]
  | cons a l ih =>
    intro seen
    simp only [uniqueFirstAux]
    by_cases ha : a ∈ seen
    · rw [if_pos ha, ih]
      constructor
      · rintro ⟨hx, hs⟩
        exact ⟨List.mem_cons_of_mem a hx, hs⟩
      · rintro ⟨hx, hs⟩
        rcases List.mem_cons.mp hx with h | h
        · exact absurd (h.symm ▸ ha) hs
        · exact ⟨h, hs⟩
    · rw [if_neg ha]
      constructor
      · intro hx
        rcases List.mem_cons.mp hx with h | h
        · exact ⟨List.mem_cons.mpr (Or.inl h), by rw [h]; exact ha⟩
        · obtain ⟨hl, hs⟩ := (ih (a :: seen)).mp h
          exact ⟨List.mem_cons_of_mem a hl, fun hseen => hs (List.mem_cons_of_mem a hseen)⟩
      · rintro ⟨hx, hs⟩
        rcases List.mem_cons.mp hx with h | h
        · exact List.mem_cons.mpr (Or.inl h)
        · by_cases hxa : x = a
          · exact List.mem_cons.mpr (Or.inl hxa)
          · refine List.mem_cons_of_mem a ((ih (a :: seen)).mpr ⟨h, ?_⟩)
            intro hmem
            rcases List.mem_cons.mp hmem with h2 | h2
            · exact hxa h2
            · exact hs h2

theorem mem_uniqueFirst {α : Type} [DecidableEq α] (x : α) (l : List α) :
    x ∈ uniqueFirst l ↔ x ∈ l := by
  rw [uniqueFirst, mem_uniqueFirstAux]
  simp

theorem nodup_uniqueFirstAux {α : Type} [DecidableEq α] :
    ∀ (l seen : List α), (uniqueFirstAux seen l).Nodup := by
  intro l
  induction l with
  | nil => intro seen; simp [uniqueFirstAux]
  | cons a l ih =>
    intro seen
    simp only [uniqueFirstAux]
    by_cases ha : a ∈ seen
    · rw [if_pos ha]; exact ih seen
    · rw [if_neg ha]
      refine List.nodup_cons.mpr ⟨?_, ih (a :: seen)⟩
      intro hmem
      exact ((mem_uniqueFirstAux a l (a :: seen)).mp hmem).2 (List.mem_cons_self a seen)

theorem nodup_uniqueFirst {α : Type} [DecidableEq α] (l : List α) :
    (uniqueFirst l).Nodup :=
  nodup_uniqueFirstAux l []

/-- Inversion of a successful forecast request: the file existed, both checks
passed, and the response is the one built at src/main.py:279-285. -/
theorem get_forecast_ok_inv (store : Store) (prophet : ProphetFn) (uid : Nat)
    (product_id filename : String) (resp : ForecastResponse)
    (h : get_forecast store prophet uid product_id filename = .ok resp) :
    ∃ df, store (file_path uid filename) = some (some df) ∧
      df.records.filter (fun r => decide (r.product_id = product_id)) ≠ [] ∧
      ¬ (df.records.filter (fun r => decide (r.product_id = product_id))).length < 30 ∧
      resp = { product_id := product_id,
               insight := generate_insight product_id
                 ((prophetInput df product_id).map (fun r => r.y))
                 ((prophet true 30 (prophetInput df product_id)).map (fun r => r.yhat)),
               historical_data := prophetInput df product_id,
               forecast_data := tailN 30 ((prophet true 30 (prophetInput df product_id)).map
                 (fun r => (PyVal.vDate r.ds, r.yhat, r.yhat_lower, r.yhat_upper))) } := by
  unfold get_forecast at h
  cases hs : store (file_path uid filename) with
  | none => rw [hs] at h; simp at h
  | some c =>
    cases c with
    | none => rw [hs] at h; simp at h
    | some df =>
      rw [hs] at h
      have h' : get_forecast_main df prophet product_id = Except.ok resp := h
      by_cases h1 : df.records.filter (fun r => decide (r.product_id = product_id)) = []
      · simp only [get_forecast_main] at h'; rw [if_pos h1] at h'; simp at h'
      · by_cases h2 : (df.records.filter (fun r => decide (r.product_id = product_id))).length < 30
        · simp only [get_forecast_main] at h'; rw [if_neg h1, if_pos h2] at h'; simp at h'
        · rw [get_forecast_main_eq_ok df prophet product_id h1 h2] at h'
          injection h' with h'
          exact ⟨df, rfl, h1, h2, h'.symm⟩

/-! ### C2: product filter and row-count gate of forecast and export -/

/-- C2: on an existing file, both the forecast and the export operation fail
with 404 when no row matches the requested product_id, fail with 400 when
fewer than 30 rows match, and otherwise proceed to produce a forecast
response; the branch taken depends only on the matching-row count. -/
theorem forecast_row_count_gate (store : Store) (prophet : ProphetFn) (uid : Nat)
    (product_id filename : String) (df : Table)
    (hfile : store (file_path uid filename) = some (some df)) :
    (df.records.filter (fun r => decide (r.product_id = product_id)) = [] →
      get_forecast store prophet uid product_id filename =
        .error { status := 404, detail := "Product ID " ++ product_id ++ " not found." } ∧
      export_forecast_csv store prophet uid product_id filename =
        .error { status := 404, detail := "Product ID " ++ product_id ++ " not found." }) ∧
    (df.records.filter (fun r => decide (r.product_id = product_id)) ≠ [] →
     (df.records.filter (fun r => decide (r.product_id = product_id))).length < 30 →
      get_forecast store prophet uid product_id filename =
        .error { status := 400, detail := "Not enough data. A minimum of 30 data points is required." } ∧
      export_forecast_csv store prophet uid product_id filename =
        .error { status := 400, detail := "Not enough data to export." }) ∧
    (30 ≤ (df.records.filter (fun r => decide (r.product_id = product_id))).length →
      (∃ resp, get_forecast store prophet uid product_id filename = .ok resp) ∧
      (∃ resp, export_forecast_csv store prophet uid product_id filename = .ok resp)) := by
  have hgf : get_forecast store prophet uid product_id filename =
      get_forecast_main df prophet product_id := by
    unfold get_forecast; rw [hfile]
  have hex : export_forecast_csv store prophet uid product_id filename =
      export_forecast_csv_main df prophet product_id := by
    unfold export_forecast_csv; rw [hfile]
  refine ⟨?_, ?_, ?_⟩
  · intro h0
    rw [hgf, hex]
    constructor
    · simp [get_forecast_main, h0]
    · simp [export_forecast_csv_main, h0]
  · intro h1 h2
    rw [hgf, hex]
    constructor
    · simp [get_forecast_main, h1, h2]
    · simp [export_forecast_csv_main, h1, h2]
  · intro h3
    have h1 : df.records.filter (fun r => decide (r.product_id = product_id)) ≠ [] := by
      intro h; rw [h] at h3; simp at h3
    have h2 : ¬ (df.records.filter (fun r => decide (r.product_id = product_id))).length < 30 :=
      Nat.not_lt.mpr h3
    rw [hgf, hex]
    exact ⟨⟨_, get_forecast_main_eq_ok df prophet product_id h1 h2⟩,
           ⟨_, export_main_eq_ok df prophet product_id h1 h2⟩⟩

/-- Witness for C2: concrete runs through each of the three branches. -/
theorem forecast_row_count_gate_witness :
    (∃ resp, get_forecast storeA prophetEcho 1 "A" "data.csv" = .ok resp) ∧
    get_forecast storeA prophetEcho 1 "B" "data.csv" =
      .error { status := 404, detail := "Product ID B not found." } ∧
    export_forecast_csv storeA prophetEcho 1 "C" "small.csv" =
      .error { status := 400, detail := "Not enough data to export." } := by
  refine ⟨?_, ?_, ?_⟩
  · exact ((forecast_row_count_gate storeA prophetEcho 1 "A" "data.csv" tbl30 rfl).2.2
      (by decide)).1
  · exact ((forecast_row_count_gate storeA prophetEcho 1 "B" "data.csv" tbl30 rfl).1
      (by decide)).1
  · exact ((forecast_row_count_gate storeA prophetEcho 1 "C" "small.csv" tblSmall rfl).2.1
      (by decide) (by decide)).2

/-! ### C3: valid uploads succeed and report the distinct product ids -/

/-- C3: uploading a file whose name ends in .csv, whose content parses, which
has the four required columns and no negative units_sold or price value,
succeeds, and the products field of the response is exactly the set of
distinct product_id values of the file (same membership, no duplicates). -/
theorem upload_valid_csv_ok (store : Store) (uid : Nat) (filename : String) (df : Table)
    (hcsv : strEndsWith filename ".csv" = true)
    (hcols : required_columns.all (fun c => decide (c ∈ df.cols)) = true)
    (hus : df.records.any (fun r => decide (r.units_sold < 0)) = false)
    (hpr : df.records.any (fun r => decide (r.price < 0)) = false) :
    ∃ payload, (upload_csv store uid filename (some df)).1 = .ok payload ∧
      (∀ p, p ∈ payload.products ↔ p ∈ df.records.map (fun r => r.product_id)) ∧
      payload.products.Nodup := by
  refine ⟨{ message := "CSV validated and saved successfully!", filename := filename,
            products := uniqueFirst (df.records.map (fun r => r.product_id)) }, ?_, ?_, ?_⟩
  · simp [upload_csv, hcsv, hcols, hus, hpr]
  · intro p; exact mem_uniqueFirst p _
  · exact nodup_uniqueFirst _

/-- Witness for C3: a concrete valid upload. -/
theorem upload_valid_csv_ok_witness :
    ∃ payload, (upload_csv storeA 1 "data.csv" (some tbl30)).1 = .ok payload ∧
      (∀ p, p ∈ payload.products ↔ p ∈ tbl30.records.map (fun r => r.product_id)) ∧
      payload.products.Nodup :=
  upload_valid_csv_ok storeA 1 "data.csv" tbl30 (by decide) (by decide) (by decide) (by decide)

/-! ### C4: failed uploads leave no file on storage -/

/-- C4: an upload whose filename does not end in .csv is rejected with 400
with the store untouched; a .csv upload whose content fails validation ends
with no file at the target path and a 400 validation error. -/
theorem upload_failure_leaves_no_file (store : Store) (uid : Nat) (filename : String)
    (content : Option Table) :
    (strEndsWith filename ".csv" = false →
      upload_csv store uid filename content =
        (.error { status := 400, detail := "Invalid file type. Please upload a CSV file." }, store)) ∧
    (strEndsWith filename ".csv" = true → failsValidation content →
      (upload_csv store uid filename content).2 (file_path uid filename) = none ∧
      ∃ e, (upload_csv store uid filename content).1 = .error e ∧ e.status = 400 ∧
        e.detail ∈ ["CSV Validation Error: could not parse file",
                    "CSV Validation Error: Missing required columns",
                    "CSV Validation Error: units_sold and price cannot contain negative values"]) := by
  constructor
  · intro hno
    simp [upload_csv, hno]
  · intro hcsv hbad
    rcases hbad with hnone | ⟨df, hdf, hfail⟩
    · subst hnone
      exact ⟨by simp [upload_csv, hcsv],
        ⟨{ status := 400, detail := "CSV Validation Error: could not parse file" },
          by simp [upload_csv, hcsv], rfl, by simp⟩⟩
    · subst hdf
      rcases hfail with hcols | hus | hpr
      · exact ⟨by simp [upload_csv, hcsv, hcols],
          ⟨{ status := 400, detail := "CSV Validation Error: Missing required columns" },
            by simp [upload_csv, hcsv, hcols], rfl, by simp⟩⟩
      · by_cases hcols : required_columns.all (fun c => decide (c ∈ df.cols)) = false
        · exact ⟨by simp [upload_csv, hcsv, hcols],
            ⟨{ status := 400, detail := "CSV Validation Error: Missing required columns" },
              by simp [upload_csv, hcsv, hcols], rfl, by simp⟩⟩
        · rw [Bool.not_eq_false] at hcols
          exact ⟨by simp [upload_csv, hcsv, hcols, hus],
            ⟨{ status := 400,
               detail := "CSV Validation Error: units_sold and price cannot contain negative values" },
              by simp [upload_csv, hcsv, hcols, hus], rfl, by simp⟩⟩
      · by_cases hcols : required_columns.all (fun c => decide (c ∈ df.cols)) = false
        · exact ⟨by simp [upload_csv, hcsv, hcols],
            ⟨{ status := 400, detail := "CSV Validation Error: Missing required columns" },
              by simp [upload_csv, hcsv, hcols], rfl, by simp⟩⟩
        · rw [Bool.not_eq_false] at hcols
          by_cases hus : df.records.any (fun r => decide (r.units_sold < 0)) = true
          · exact ⟨by simp [upload_csv, hcsv, hcols, hus],
              ⟨{ status := 400,
                 detail := "CSV Validation Error: units_sold and price cannot contain negative values" },
                by simp [upload_csv, hcsv, hcols, hus], rfl, by simp⟩⟩
          · rw [Bool.not_eq_true] at hus
            exact ⟨by simp [upload_csv, hcsv, hcols, hus, hpr],
              ⟨{ status := 400,
                 detail := "CSV Validation Error: units_sold and price cannot contain negative values" },
                by simp [upload_csv, hcsv, hcols, hus, hpr], rfl, by simp⟩⟩

/-- Witness for C4: a concrete rejected extension and a concrete deleted
invalid upload. -/
theorem upload_failure_leaves_no_file_witness :
    upload_csv storeA 1 "data.txt" (some tbl30) =
      (.error { status := 400, detail := "Invalid file type. Please upload a CSV file." }, storeA) ∧
    (upload_csv storeA 1 "data.csv" (some tblNeg)).2 (file_path 1 "data.csv") = none := by
  constructor
  · exact (upload_failure_leaves_no_file storeA 1 "data.txt" (some tbl30)).1 (by decide)
  · exact ((upload_failure_leaves_no_file storeA 1 "data.csv" (some tblNeg)).2 (by decide)
      (Or.inr ⟨tblNeg, rfl, Or.inr (Or.inr (by decide))⟩)).1

/-! ### C10: a failed re-upload destroys the previously stored dataset -/

/-- C10: when a dataset is already stored under the key of a .csv upload and
the new content fails validation, the request ends with a 400 error and no
dataset left at that key: the old dataset is destroyed, not preserved. -/
theorem reupload_failure_destroys_previous (store : Store) (uid : Nat) (filename : String)
    (old : Option Table) (content : Option Table)
    (_hstored : store (file_path uid filename) = some old)
    (hcsv : strEndsWith filename ".csv" = true)
    (hbad : failsValidation content) :
    (upload_csv store uid filename content).2 (file_path uid filename) = none ∧
    ∃ e, (upload_csv store uid filename content).1 = .error e ∧ e.status = 400 := by
  obtain ⟨hgone, e, he, hst, _⟩ := (upload_failure_leaves_no_file store uid filename content).2 hcsv hbad
  exact ⟨hgone, e, he, hst⟩

/-- Witness for C10: data.csv holds tbl30 in storeA; re-uploading the invalid
tblNeg under the same name leaves nothing stored there. -/
theorem reupload_failure_destroys_previous_witness :
    (upload_csv storeA 1 "data.csv" (some tblNeg)).2 (file_path 1 "data.csv") = none :=
  (reupload_failure_destroys_previous storeA 1 "data.csv" (some tbl30) (some tblNeg)
    rfl (by decide) (Or.inr ⟨tblNeg, rfl, Or.inr (Or.inr (by decide))⟩)).1

/-! ### Order facts for the grouping relations -/

theorem dateLe_total_thm : ∀ a b : Date, dateLe a b ∨ dateLe b a := by
  intro a b
  unfold dateLe
  omega

instance : IsTotal Date dateLe := ⟨dateLe_total_thm⟩

theorem dateLe_trans_thm : ∀ a b c : Date, dateLe a b → dateLe b c → dateLe a c := by
  intro a b c
  unfold dateLe
  omega

instance : IsTrans Date dateLe := ⟨fun a b c => dateLe_trans_thm a b c⟩

theorem lexLe_total : ∀ a b : List Char, lexLe a b = true ∨ lexLe b a = true := by
  intro a
  induction a with
  | nil => intro b; left; rfl
  | cons x xs ih =>
    intro b
    cases b with
    | nil => right; rfl
    | cons y ys =>
      by_cases h1 : x.toNat < y.toNat
      · left; simp [lexLe, h1]
      · by_cases h2 : y.toNat < x.toNat
        · right; simp [lexLe, h2]
        · rcases ih ys with h | h
          · left; simp [lexLe, h1, h2, h]
          · right; simp [lexLe, h1, h2, h]

theorem lexLe_trans :
    ∀ a b c : List Char, lexLe a b = true → lexLe b c = true → lexLe a c = true := by
  intro a
  induction a with
  | nil => intro b c _ _; rfl
  | cons x xs ih =>
    intro b c hab hbc
    cases b with
    | nil => simp [lexLe] at hab
    | cons y ys =>
      cases c with
      | nil => simp [lexLe] at hbc
      | cons z zs =>
        by_cases h1 : x.toNat < y.toNat
        · by_cases h2 : y.toNat < z.toNat
          · have hxz : x.toNat < z.toNat := lt_trans h1 h2
            simp [lexLe, hxz]
          · by_cases h3 : z.toNat < y.toNat
            · simp [lexLe, h2, h3] at hbc
            · have hxz : x.toNat < z.toNat := by omega
              simp [lexLe, hxz]
        · by_cases h1' : y.toNat < x.toNat
          · simp [lexLe, h1, h1'] at hab
          · by_cases h2 : y.toNat < z.toNat
            · have hxz : x.toNat < z.toNat := by omega
              simp [lexLe, hxz]
            · by_cases h3 : z.toNat < y.toNat
              · simp [lexLe, h2, h3] at hbc
              · have hxz1 : ¬ x.toNat < z.toNat := by omega
                have hxz2 : ¬ z.toNat < x.toNat := by omega
                have hab2 : lexLe xs ys = true := by
                  simpa [lexLe, h1, h1'] using hab
                have hbc2 : lexLe ys zs = true := by
                  simpa [lexLe, h2, h3] using hbc
                simp [lexLe, hxz1, hxz2, ih ys zs hab2 hbc2]

theorem strLe_total_thm : ∀ a b : String, strLe a b ∨ strLe b a := by
  intro a b
  exact lexLe_total a.data b.data

instance : IsTotal String strLe := ⟨strLe_total_thm⟩

theorem strLe_trans_thm : ∀ a b c : String, strLe a b → strLe b c → strLe a c := by
  intro a b c hab hbc
  exact lexLe_trans a.data b.data c.data hab hbc

instance : IsTrans String strLe := ⟨fun a b c => strLe_trans_thm a b c⟩

/-! ### Stability of the descending value sort -/

/-- Inserting an element that is s-below a list that is sorted for r keeps the
combined pairwise relation: r holds pairwise and r-ties keep their s order. -/
theorem pairwise_orderedInsert_stable {α : Type} (r : α → α → Prop) [DecidableRel r]
    (s : α → α → Prop) (htot : ∀ a b, r a b ∨ r b a)
    (htrans : ∀ a b c, r a b → r b c → r a c) (x : α) :
    ∀ m : List α,
      List.Pairwise (fun a b => r a b ∧ (r b a → s a b)) m →
      (∀ b ∈ m, s x b) →
      List.Pairwise (fun a b => r a b ∧ (r b a → s a b)) (List.orderedInsert r x m) := by
  intro m
  induction m with
  | nil => intro _ _; simp [List.orderedInsert]
  | cons b bs ih =>
    intro hm hx
    rw [List.orderedInsert]
    obtain ⟨hb, hbs⟩ := List.pairwise_cons.mp hm
    by_cases hrxb : r x b
    · rw [if_pos hrxb]
      refine List.Pairwise.cons ?_ hm
      intro c hc
      rcases List.mem_cons.mp hc with hcb | hcbs
      · exact hcb ▸ ⟨hrxb, fun _ => hx b (List.mem_cons_self b bs)⟩
      · exact ⟨htrans x b c hrxb (hb c hcbs).1, fun _ => hx c (List.mem_cons_of_mem b hcbs)⟩
    · rw [if_neg hrxb]
      have hrbx : r b x := (htot x b).resolve_left hrxb
      refine List.Pairwise.cons ?_ (ih hbs (fun c hc => hx c (List.mem_cons_of_mem b hc)))
      intro c hc
      rcases (List.mem_orderedInsert r).mp hc with hcx | hcbs
      · exact hcx ▸ ⟨hrbx, fun hxb => absurd hxb hrxb⟩
      · exact hb c hcbs

/-- Insertion sort for r of a list sorted for s is stable: pairwise r holds
on the output and r-ties keep their s order. -/
theorem pairwise_insertionSort_stable {α : Type} (r : α → α → Prop) [DecidableRel r]
    (s : α → α → Prop) (htot : ∀ a b, r a b ∨ r b a)
    (htrans : ∀ a b c, r a b → r b c → r a c) :
    ∀ l : List α, List.Pairwise s l →
      List.Pairwise (fun a b => r a b ∧ (r b a → s a b)) (List.insertionSort r l) := by
  intro l
  induction l with
  | nil => intro _; simp
  | cons a l ih =>
    intro hs
    obtain ⟨ha, hl⟩ := List.pairwise_cons.mp hs
    have hx : ∀ b ∈ List.insertionSort r l, s a b := by
      intro b hb
      exact ha b ((List.perm_insertionSort r l).mem_iff.mp hb)
    exact pairwise_orderedInsert_stable r s htot htrans a (List.insertionSort r l) (ih hl) hx

/-! ### Characterization of the groupby sums -/

theorem groupbySum_sorted_keys {κ : Type} [DecidableEq κ] (r : κ → κ → Prop) [DecidableRel r]
    [IsTotal κ r] [IsTrans κ r] (key : SalesRecord → κ) (val : SalesRecord → ℚ)
    (rs : List SalesRecord) :
    List.Pairwise (fun p q : κ × ℚ => r p.1 q.1 ∧ p.1 ≠ q.1) (groupbySum r key val rs) := by
  have hsorted : List.Pairwise r (List.insertionSort r (uniqueFirst (rs.map key))) :=
    List.sorted_insertionSort r (uniqueFirst (rs.map key))
  have hnodup : (List.insertionSort r (uniqueFirst (rs.map key))).Nodup :=
    (List.perm_insertionSort r (uniqueFirst (rs.map key))).nodup_iff.mpr (nodup_uniqueFirst _)
  have hcomb := hsorted.and hnodup
  unfold groupbySum
  exact List.pairwise_map.mpr (hcomb.imp (fun h => ⟨h.1, h.2⟩))

theorem groupbySum_mem {κ : Type} [DecidableEq κ] (r : κ → κ → Prop) [DecidableRel r]
    (key : SalesRecord → κ) (val : SalesRecord → ℚ) (rs : List SalesRecord) (p : κ × ℚ) :
    p ∈ groupbySum r key val rs ↔
      p.1 ∈ rs.map key ∧
      p.2 = ((rs.filter (fun x => decide (key x = p.1))).map val).sum := by
  unfold groupbySum
  rw [List.mem_map]
  constructor
  · rintro ⟨k, hk, rfl⟩
    refine ⟨?_, rfl⟩
    have : k ∈ uniqueFirst (rs.map key) := (List.perm_insertionSort r _).mem_iff.mp hk
    exact (mem_uniqueFirst k _).mp this
  · rintro ⟨hmem, hval⟩
    refine ⟨p.1, ?_, ?_⟩
    · rw [(List.perm_insertionSort r _).mem_iff, mem_uniqueFirst]
      exact hmem
    · exact Prod.ext rfl hval.symm

/-! ### C1: insight generation formula and thresholds -/

/-- C1: every forecast response that reaches insight generation carries the
insight computed by generate_insight from the full filtered history and the
full forecast output (history plus future, not the future-only tail); the
change percentage is the spec formula, with the missing-or-zero history
average giving plus infinity exactly when the forecast average is positive
and 0 otherwise; the thresholds fire in the stated priority order; and the
averages 100 against 120 select the strong upward branch while 100 against
80 select the significant downward branch. -/
theorem insight_generation_spec (store : Store) (prophet : ProphetFn) (uid : Nat)
    (product_id filename : String) (resp : ForecastResponse)
    (h : get_forecast store prophet uid product_id filename = .ok resp) :
    resp.insight = generate_insight product_id (resp.historical_data.map (fun r => r.y))
      ((prophet true 30 resp.historical_data).map (fun r => r.yhat))
    ∧ (∀ histY fcstY : List ℚ, ∀ a f : ℚ, mean (tailN 7 histY) = some a → a ≠ 0 →
        mean (tailN 7 fcstY) = some f →
        change_percent_of histY fcstY = ChangeVal.fin ((f - a) / a * 100))
    ∧ (∀ histY fcstY : List ℚ, (mean (tailN 7 histY) = none ∨ mean (tailN 7 histY) = some 0) →
        change_percent_of histY fcstY =
          (if posB (mean (tailN 7 fcstY)) then ChangeVal.pinf else ChangeVal.fin 0))
    ∧ (∀ q : ℚ, 15 < q → trend_of (ChangeVal.fin q) = Trend.strongUpward)
    ∧ (∀ q : ℚ, 5 < q → q ≤ 15 → trend_of (ChangeVal.fin q) = Trend.modestUpward)
    ∧ (∀ q : ℚ, q < -15 → trend_of (ChangeVal.fin q) = Trend.significantDownward)
    ∧ (∀ q : ℚ, -15 ≤ q → q < -5 → trend_of (ChangeVal.fin q) = Trend.modestDownward)
    ∧ (∀ q : ℚ, -5 ≤ q → q ≤ 5 → trend_of (ChangeVal.fin q) = Trend.stable)
    ∧ change_percent_of [100] [120] = ChangeVal.fin 20
    ∧ (generate_insight product_id [100] [120]).trend = Trend.strongUpward
    ∧ change_percent_of [100] [80] = ChangeVal.fin (-20)
    ∧ (generate_insight product_id [100] [80]).trend = Trend.significantDownward := by
  have hcp120 : change_percent_of [100] [120] = ChangeVal.fin 20 := by
    norm_num [change_percent_of, mean, tailN]
  have hcp80 : change_percent_of [100] [80] = ChangeVal.fin (-20) := by
    norm_num [change_percent_of, mean, tailN]
  have hstrong : ∀ q : ℚ, 15 < q → trend_of (ChangeVal.fin q) = Trend.strongUpward := by
    intro q hq
    simp [trend_of, cpGtB, hq]
  have hsig : ∀ q : ℚ, q < -15 → trend_of (ChangeVal.fin q) = Trend.significantDownward := by
    intro q hq
    have h1 : ¬ (15 : ℚ) < q := by linarith
    have h2 : ¬ (5 : ℚ) < q := by linarith
    simp [trend_of, cpGtB, cpLtB, h1, h2, hq]
  refine ⟨?_, ?_, ?_, hstrong, ?_, hsig, ?_, ?_, hcp120, ?_, hcp80, ?_⟩
  · obtain ⟨df, _, _, _, hresp⟩ :=
      get_forecast_ok_inv store prophet uid product_id filename resp h
    subst hresp
    rfl
  · intro histY fcstY a f ha hne hf
    simp [change_percent_of, ha, hf, hne]
  · intro histY fcstY hcase
    rcases hcase with h0 | h0
    · simp [change_percent_of, h0]
    · simp [change_percent_of, h0]
  · intro q hq1 hq2
    have h1 : ¬ (15 : ℚ) < q := not_lt.mpr hq2
    simp [trend_of, cpGtB, h1, hq1]
  · intro q hq1 hq2
    have h1 : ¬ (15 : ℚ) < q := by linarith
    have h2 : ¬ (5 : ℚ) < q := by linarith
    have h3 : ¬ q < (-15 : ℚ) := not_lt.mpr hq1
    simp [trend_of, cpGtB, cpLtB, h1, h2, h3, hq2]
  · intro q hq1 hq2
    have h1 : ¬ (15 : ℚ) < q := by linarith
    have h2 : ¬ (5 : ℚ) < q := not_lt.mpr hq2
    have h3 : ¬ q < (-15 : ℚ) := by linarith
    have h4 : ¬ q < (-5 : ℚ) := not_lt.mpr hq1
    simp [trend_of, cpGtB, cpLtB, h1, h2, h3, h4]
  · have : (generate_insight product_id [100] [120]).trend = trend_of (change_percent_of [100] [120]) := rfl
    rw [this, hcp120]
    exact hstrong 20 (by norm_num)
  · have : (generate_insight product_id [100] [80]).trend = trend_of (change_percent_of [100] [80]) := rfl
    rw [this, hcp80]
    exact hsig (-20) (by norm_num)

/-- Witness for C1: a concrete successful forecast request, from which the
two concrete threshold selections follow. -/
theorem insight_generation_spec_witness :
    (generate_insight "A" [100] [120]).trend = Trend.strongUpward ∧
    (generate_insight "A" [100] [80]).trend = Trend.significantDownward := by
  have h := insight_generation_spec storeA prophetEcho 1 "A" "data.csv" _ rfl
  exact ⟨h.2.2.2.2.2.2.2.2.2.1, h.2.2.2.2.2.2.2.2.2.2.2⟩

/-! ### C7: shape of the forecast response -/

/-- Length of a pandas tail. -/
theorem tailN_length {α : Type} (n : Nat) (l : List α) :
    (tailN n l).length = min n l.length := by
  simp [tailN]
  omega

/-- Counterexample to C7 as stated: in the forecast response the date cell of
a forecast_data row is the raw datetime value, not its strftime rendering
YYYY-MM-DD; at this concrete input the first row carries the raw date
2024-01-01 and that cell differs from the formatted string cell. -/
theorem forecast_data_date_not_formatted :
    ∃ resp, get_forecast storeA prophetEcho 1 "A" "data.csv" = Except.ok resp ∧
      resp.forecast_data.head?.map (fun t => t.1) = some (PyVal.vDate ⟨2024, 1, 1⟩) ∧
      PyVal.vDate ⟨2024, 1, 1⟩ ≠ PyVal.vStr (fmtDate ⟨2024, 1, 1⟩) := by
  refine ⟨_, rfl, by decide, by decide⟩

/-- C7 as amended: historical_data is the full filtered (date, units_sold)
sequence unmodified, and forecast_data is the trailing 30 rows of the full
forecast output, each row carrying the raw date value (no YYYY-MM-DD
formatting on this path) together with yhat, yhat_lower and yhat_upper. -/
theorem forecast_response_shape (store : Store) (prophet : ProphetFn) (uid : Nat)
    (product_id filename : String) (df : Table)
    (hfile : store (file_path uid filename) = some (some df))
    (h1 : df.records.filter (fun r => decide (r.product_id = product_id)) ≠ [])
    (h2 : ¬ (df.records.filter (fun r => decide (r.product_id = product_id))).length < 30) :
    get_forecast store prophet uid product_id filename =
      .ok { product_id := product_id,
            insight := generate_insight product_id
              ((prophetInput df product_id).map (fun r => r.y))
              ((prophet true 30 (prophetInput df product_id)).map (fun r => r.yhat)),
            historical_data := prophetInput df product_id,
            forecast_data := tailN 30 ((prophet true 30 (prophetInput df product_id)).map
              (fun r => (PyVal.vDate r.ds, r.yhat, r.yhat_lower, r.yhat_upper))) } ∧
    (tailN 30 ((prophet true 30 (prophetInput df product_id)).map
        (fun r => (PyVal.vDate r.ds, r.yhat, r.yhat_lower, r.yhat_upper)))).length =
      min 30 (prophet true 30 (prophetInput df product_id)).length := by
  constructor
  · have : get_forecast store prophet uid product_id filename =
        get_forecast_main df prophet product_id := by
      unfold get_forecast; rw [hfile]
    rw [this]
    exact get_forecast_main_eq_ok df prophet product_id h1 h2
  · rw [tailN_length]
    simp

/-- Witness for the amended C7 at a concrete input. -/
theorem forecast_response_shape_witness :
    ∃ resp, get_forecast storeA prophetEcho 1 "A" "data.csv" = Except.ok resp :=
  ⟨_, (forecast_response_shape storeA prophetEcho 1 "A" "data.csv" tbl30 rfl
    (by decide) (by decide)).1⟩

/-! ### C8: what is handed to the forecasting function -/

/-- Counterexample to C8 as stated: the (date, units_sold) sequence handed to
the forecasting function is not sorted by date; with a dataset stored in
descending date order the sequence starts at 2024-01-30 and differs from its
date-sorted permutation. -/
theorem prophet_input_not_sorted :
    ∃ resp, get_forecast storeD prophetEcho 1 "D" "desc.csv" = Except.ok resp ∧
      resp.historical_data = prophetInput tblDesc "D" ∧
      resp.historical_data.head?.map (fun r => r.ds) = some ⟨2024, 1, 30⟩ ∧
      resp.historical_data ≠
        List.insertionSort (fun a b : TsRow => dateLe a.ds b.ds) resp.historical_data := by
  refine ⟨_, rfl, by decide, by decide, by decide⟩

/-- C8 as amended: once the product and row-count checks pass, both endpoints
hand the forecasting function the filtered (date, units_sold) rows in their
original dataset order (not sorted by date), configured with
daily_seasonality true, and request 30 future periods. -/
theorem prophet_invocation (store : Store) (prophet : ProphetFn) (uid : Nat)
    (product_id filename : String) (df : Table)
    (hfile : store (file_path uid filename) = some (some df))
    (h1 : df.records.filter (fun r => decide (r.product_id = product_id)) ≠ [])
    (h2 : ¬ (df.records.filter (fun r => decide (r.product_id = product_id))).length < 30) :
    prophetInput df product_id =
      (df.records.filter (fun r => decide (r.product_id = product_id))).map
        (fun r => { ds := r.date, y := r.units_sold }) ∧
    get_forecast store prophet uid product_id filename =
      .ok { product_id := product_id,
            insight := generate_insight product_id
              ((prophetInput df product_id).map (fun r => r.y))
              ((prophet true 30 (prophetInput df product_id)).map (fun r => r.yhat)),
            historical_data := prophetInput df product_id,
            forecast_data := tailN 30 ((prophet true 30 (prophetInput df product_id)).map
              (fun r => (PyVal.vDate r.ds, r.yhat, r.yhat_lower, r.yhat_upper))) } ∧
    export_forecast_csv store prophet uid product_id filename =
      .ok { header := ["date", "predicted_sales", "predicted_sales_lower_bound", "predicted_sales_upper_bound"],
            rows := (prophet true 30 (prophetInput df product_id)).map (fun r =>
              [PyVal.vStr (fmtDate r.ds), PyVal.vNum r.yhat, PyVal.vNum r.yhat_lower, PyVal.vNum r.yhat_upper]),
            contentDisposition := "attachment; filename=forecast_" ++ product_id ++ ".csv",
            mediaType := "text/csv" } := by
  refine ⟨rfl, ?_, ?_⟩
  · have : get_forecast store prophet uid product_id filename =
        get_forecast_main df prophet product_id := by
      unfold get_forecast; rw [hfile]
    rw [this]
    exact get_forecast_main_eq_ok df prophet product_id h1 h2
  · have : export_forecast_csv store prophet uid product_id filename =
        export_forecast_csv_main df prophet product_id := by
      unfold export_forecast_csv; rw [hfile]
    rw [this]
    exact export_main_eq_ok df prophet product_id h1 h2

/-- Witness for the amended C8 at a concrete input. -/
theorem prophet_invocation_witness :
    ∃ resp, get_forecast storeD prophetEcho 1 "D" "desc.csv" = Except.ok resp :=
  ⟨_, (prophet_invocation storeD prophetEcho 1 "D" "desc.csv" tblDesc rfl
    (by decide) (by decide)).2.1⟩

/-! ### C9: the export variant and its round trip -/

/-- Re-parsing the serialized forecast rows recovers the tuples. -/
theorem parseRows_serialized (l : List ForecastRow) :
    parseRows (l.map (fun r => [PyVal.vStr (fmtDate r.ds), PyVal.vNum r.yhat,
        PyVal.vNum r.yhat_lower, PyVal.vNum r.yhat_upper])) =
      some (l.map (fun r => (fmtDate r.ds, r.yhat, r.yhat_lower, r.yhat_upper))) := by
  induction l with
  | nil => rfl
  | cons a l ih => simp [parseRows, parseExportRow, ih]

/-- C9: for the same inputs and a deterministic forecasting function, the
export operation recomputes the same filter, checks and forecast as the
forecast endpoint; it serializes one row per row of the full forecast output
with the fixed header, YYYY-MM-DD dates and the forecast_<product_id>.csv
content disposition; and re-parsing the rows reproduces exactly the
(date, yhat, yhat_lower, yhat_upper) tuples of the forecast computation
underlying the forecast endpoint. -/
theorem export_roundtrip (store : Store) (prophet : ProphetFn) (uid : Nat)
    (product_id filename : String) (df : Table)
    (hfile : store (file_path uid filename) = some (some df))
    (h1 : df.records.filter (fun r => decide (r.product_id = product_id)) ≠ [])
    (h2 : ¬ (df.records.filter (fun r => decide (r.product_id = product_id))).length < 30) :
    ∃ respE respG,
      export_forecast_csv store prophet uid product_id filename = .ok respE ∧
      get_forecast store prophet uid product_id filename = .ok respG ∧
      respG.historical_data = prophetInput df product_id ∧
      respE.header = ["date", "predicted_sales", "predicted_sales_lower_bound", "predicted_sales_upper_bound"] ∧
      respE.contentDisposition = "attachment; filename=forecast_" ++ product_id ++ ".csv" ∧
      respE.mediaType = "text/csv" ∧
      respE.rows = (prophet true 30 respG.historical_data).map (fun r =>
        [PyVal.vStr (fmtDate r.ds), PyVal.vNum r.yhat, PyVal.vNum r.yhat_lower, PyVal.vNum r.yhat_upper]) ∧
      parseRows respE.rows = some ((prophet true 30 respG.historical_data).map
        (fun r => (fmtDate r.ds, r.yhat, r.yhat_lower, r.yhat_upper))) := by
  have hE : export_forecast_csv store prophet uid product_id filename =
      export_forecast_csv_main df prophet product_id := by
    unfold export_forecast_csv; rw [hfile]
  have hG : get_forecast store prophet uid product_id filename =
      get_forecast_main df prophet product_id := by
    unfold get_forecast; rw [hfile]
  rw [hE, export_main_eq_ok df prophet product_id h1 h2,
      hG, get_forecast_main_eq_ok df prophet product_id h1 h2]
  refine ⟨_, _, rfl, rfl, rfl, rfl, rfl, rfl, rfl, ?_⟩
  exact parseRows_serialized (prophet true 30 (prophetInput df product_id))

/-- Witness for C9 at a concrete input. -/
theorem export_roundtrip_witness :
    ∃ respE respG,
      export_forecast_csv storeA prophetEcho 1 "A" "data.csv" = Except.ok respE ∧
      get_forecast storeA prophetEcho 1 "A" "data.csv" = Except.ok respG := by
  obtain ⟨rE, rG, hEo, hGo, _⟩ :=
    export_roundtrip storeA prophetEcho 1 "A" "data.csv" tbl30 rfl (by decide) (by decide)
  exact ⟨rE, rG, hEo, hGo⟩

/-! ### C5: revenue over time -/

/-- C5: for every stored dataset the revenue_over_time of the analysis is
the per-date sum of units_sold times price, grouped by exact date equality,
listed in strictly ascending date order and covering exactly the dates of
the dataset; on the three-record spec example it equals the two stated
points. The operation is a pure function of the dataset, hence deterministic. -/
theorem revenue_over_time_spec (store : Store) (uid : Nat) (filename : String) (df : Table)
    (hfile : store (file_path uid filename) = some (some df)) :
    ∃ resp,
      get_historical_analysis store uid filename = .ok resp ∧
      (∃ dates : List Date,
        List.Pairwise dateLt dates ∧
        (∀ d, d ∈ dates ↔ d ∈ df.records.map (fun r => r.date)) ∧
        resp.revenue_over_time = dates.map (fun d =>
          (fmtDate d, ((df.records.filter (fun x => decide (x.date = d))).map
            (fun x => x.units_sold * x.price)).sum))) ∧
      (get_historical_analysis_main tblEx).revenue_over_time =
        [("2024-01-01", 35), ("2024-01-02", 14)] := by
  refine ⟨get_historical_analysis_main df, ?_, ?_, ?_⟩
  · unfold get_historical_analysis
    rw [hfile]
  · refine ⟨List.insertionSort dateLe (uniqueFirst (df.records.map (fun r => r.date))),
      ?_, ?_, ?_⟩
    · have hsorted :=
        List.sorted_insertionSort dateLe (uniqueFirst (df.records.map (fun r => r.date)))
      have hnodup :
          (List.insertionSort dateLe (uniqueFirst (df.records.map (fun r => r.date)))).Nodup :=
        (List.perm_insertionSort dateLe _).nodup_iff.mpr (nodup_uniqueFirst _)
      exact (hsorted.and hnodup).imp (fun h => ⟨h.1, h.2⟩)
    · intro d
      rw [(List.perm_insertionSort dateLe _).mem_iff, mem_uniqueFirst]
    · show (get_historical_analysis_main df).revenue_over_time = _
      unfold get_historical_analysis_main groupbySum
      rw [List.map_map]
      rfl
  · have hf1 : fmtDate ⟨2024, 1, 1⟩ = "2024-01-01" := rfl
    have hf2 : fmtDate ⟨2024, 1, 2⟩ = "2024-01-02" := rfl
    norm_num [get_historical_analysis_main, groupbySum, uniqueFirst, uniqueFirstAux, tblEx,
      List.insertionSort, List.orderedInsert, dateLe, hf1, hf2]

/-- Witness for C5 at a concrete stored dataset. -/
theorem revenue_over_time_spec_witness :
    ∃ resp, get_historical_analysis storeEx 1 "ex.csv" = Except.ok resp := by
  obtain ⟨resp, hok, _, _⟩ := revenue_over_time_spec storeEx 1 "ex.csv" tblEx rfl
  exact ⟨resp, hok⟩

/-! ### C6: top products -/

/-- Counterexample to C6 as stated: with two products of equal total whose
encounter order is B then A, the code returns A before B (the grouping step
sorts the keys alphabetically), while the encounter-order reading of the
claim predicts B before A. -/
theorem top_products_tie_alphabetical :
    (get_historical_analysis_main tblTie).top_products = [("A", 10), ("B", 10)] ∧
    spec_top_products_encounter tblTie.records = [("B", 10), ("A", 10)] ∧
    (get_historical_analysis_main tblTie).top_products ≠
      spec_top_products_encounter tblTie.records := by
  have hBA : ¬ strLe "B" "A" := by decide
  have hAB : strLe "A" "B" := by decide
  have hne : ¬ ("A" : String) = "B" := by decide
  have hne2 : ¬ ("B" : String) = "A" := by decide
  have h1 : (get_historical_analysis_main tblTie).top_products = [("A", 10), ("B", 10)] := by
    norm_num [get_historical_analysis_main, nlargest5, groupbySum, uniqueFirst, uniqueFirstAux,
      tblTie, List.insertionSort, List.orderedInsert, hBA, hAB, hne, hne2]
  have h2 : spec_top_products_encounter tblTie.records = [("B", 10), ("A", 10)] := by
    norm_num [spec_top_products_encounter, uniqueFirst, uniqueFirstAux, tblTie,
      List.insertionSort, List.orderedInsert, hne, hne2]
  refine ⟨h1, h2, ?_⟩
  rw [h1, h2]
  decide

/-- C6 as amended: top_products is the per-product sum of units_sold over
the distinct product_ids, sorted descending by total with ties between equal
totals broken by ascending product_id order (the grouping step sorts the
keys, so encounter order is not preserved), truncated to the 5 largest. -/
theorem top_products_spec (store : Store) (uid : Nat) (filename : String) (df : Table)
    (hfile : store (file_path uid filename) = some (some df)) :
    ∃ resp,
      get_historical_analysis store uid filename = .ok resp ∧
      resp.top_products =
        (List.insertionSort (fun a b : String × ℚ => b.2 ≤ a.2)
          (groupbySum strLe (fun r => r.product_id) (fun r => r.units_sold) df.records)).take 5 ∧
      resp.top_products.length ≤ 5 ∧
      List.Pairwise (fun a b : String × ℚ => b.2 ≤ a.2 ∧ (a.2 = b.2 → strLe a.1 b.1))
        resp.top_products ∧
      (∀ p : String × ℚ,
        p ∈ groupbySum strLe (fun r => r.product_id) (fun r => r.units_sold) df.records ↔
          (p.1 ∈ df.records.map (fun r => r.product_id) ∧
           p.2 = ((df.records.filter (fun x => decide (x.product_id = p.1))).map
             (fun x => x.units_sold)).sum)) := by
  refine ⟨get_historical_analysis_main df, ?_, rfl, ?_, ?_, ?_⟩
  · unfold get_historical_analysis
    rw [hfile]
  · show (nlargest5 _).length ≤ 5
    unfold nlargest5
    exact List.length_take_le 5 _
  · show List.Pairwise _ (nlargest5 _)
    unfold nlargest5
    have hseries : List.Pairwise (fun a b : String × ℚ => strLe a.1 b.1)
        (groupbySum strLe (fun r => r.product_id) (fun r => r.units_sold) df.records) :=
      (groupbySum_sorted_keys strLe (fun r => r.product_id) (fun r => r.units_sold)
        df.records).imp (fun h => h.1)
    have hstable := pairwise_insertionSort_stable (fun a b : String × ℚ => b.2 ≤ a.2)
      (fun a b : String × ℚ => strLe a.1 b.1)
      (fun a b => le_total b.2 a.2)
      (fun a b c h1 h2 => le_trans h2 h1)
      (groupbySum strLe (fun r => r.product_id) (fun r => r.units_sold) df.records) hseries
    have himp : List.Pairwise (fun a b : String × ℚ => b.2 ≤ a.2 ∧ (a.2 = b.2 → strLe a.1 b.1))
        (List.insertionSort (fun a b : String × ℚ => b.2 ≤ a.2)
          (groupbySum strLe (fun r => r.product_id) (fun r => r.units_sold) df.records)) :=
      hstable.imp (fun h => ⟨h.1, fun heq => h.2 (le_of_eq heq)⟩)
    exact List.Pairwise.sublist (List.take_sublist 5 _) himp
  · exact fun p => groupbySum_mem strLe (fun r => r.product_id) (fun r => r.units_sold)
      df.records p

/-- Witness for the amended C6 at a concrete stored dataset. -/
theorem top_products_spec_witness :
    ∃ resp, get_historical_analysis storeEx 1 "ex.csv" = Except.ok resp ∧
      resp.top_products.length ≤ 5 := by
  obtain ⟨resp, hok, _, hlen, _⟩ := top_products_spec storeEx 1 "ex.csv" tblEx rfl
  exact ⟨resp, hok, hlen⟩

end Oracle
